import Mathlib

/-!
Verification of the ideaspark user module.

Shallow embedding of the user-facing logic of the repository:
the pure format validators and helpers of apps/user/utils.py, and the
stateful user service of apps/user/services.py over the data model of
apps/user/models.py.  The database is modelled as an explicit state value
(lists of user and profile records); each service operation maps a state
to a new state together with its result, and every failing path returns
the original state, which is how the all-or-nothing transaction semantics
of the source shows up in a pure model.  Python regular-expression
matching with re.match and anchors is modelled explicitly, including the
fact that a final dollar anchor also matches just before a single
trailing newline.  Character classes are modelled over their ASCII
ranges.  Password hashing is modelled as an injective tagging function,
since the source delegates hashing to the framework.
-/

set_option autoImplicit false

namespace IdeaSpark

/-- Character class of the regex 1[3-9]: second phone digit. -/
def isPhoneSecond (c : Char) : Bool :=
  '3' ≤ c && c ≤ '9'

/-- Core match of the pattern 1[3-9]\d\x7b9\x7d against a whole string:
a literal 1, a digit 3-9, then exactly nine decimal digits. -/
def phone_exact (s : String) : Bool :=
  match s.data with
  | c1 :: c2 :: rest =>
      c1 == '1' && isPhoneSecond c2 && rest.length == 9 && rest.all Char.isDigit
  | _ => false

/-- Python re.match of r'^1[3-9]\d\x7b9\x7d$' on a string: the dollar anchor
matches at the end of the string or just before one trailing newline. -/
def phone_regex_match (s : String) : Bool :=
  phone_exact s ||
    (s.data.getLast? == some '\n' && phone_exact (String.mk s.data.dropLast))

/-- Python values as they reach the validators: the guards of the utils
validators accept arbitrary objects and test truthiness and isinstance. -/
inductive PyVal where
  | vNone
  | vStr (s : String)
  | vInt (n : Int)
  | vBool (b : Bool)
deriving DecidableEq

/-- Python truthiness of the modelled values. -/
def PyVal.truthy : PyVal → Bool
  | .vNone => false
  | .vStr s => s ≠ ""
  | .vInt n => n ≠ 0
  | .vBool b => b

/-- Python isinstance(v, str) on the modelled values. -/
def PyVal.is_str : PyVal → Bool
  | .vStr _ => true
  | _ => false

/-- Underlying string of a string value, default empty otherwise. -/
def PyVal.as_str : PyVal → String
  | .vStr s => s
  | _ => ""

/-- validate_phone_number of apps/user/utils.py: falsy or non-string input
is rejected, otherwise the input is stripped and matched against
r'^1[3-9]\d\x7b9\x7d$'. -/
def validate_phone_number (phone : PyVal) : Bool :=
  if !phone.truthy || !phone.is_str then false
  else phone_regex_match phone.as_str.trim

/-- Character class [a-zA-Z0-9._%+-] of the local part of the email regex. -/
def isEmailLocalChar (c : Char) : Bool :=
  c.isAlpha || c.isDigit || c == '.' || c == '_' || c == '%' || c == '+' || c == '-'

/-- Character class [a-zA-Z0-9.-] of the domain part of the email regex. -/
def isEmailDomainChar (c : Char) : Bool :=
  c.isAlpha || c.isDigit || c == '.' || c == '-'

/-- Match of the domain tail [a-zA-Z0-9.-]+\.[a-zA-Z]\x7b2,\x7d against a whole
character list: some nonempty prefix of domain characters, a dot, then at
least two letters.  Backtracking over the choice of the dot is modelled by
trying every split point. -/
def email_domain_match (r : List Char) : Bool :=
  (List.range r.length).any fun i =>
    match r.drop i with
    | '.' :: b =>
        decide (r.take i ≠ []) && (r.take i).all isEmailDomainChar &&
          decide (2 ≤ b.length) && b.all Char.isAlpha
    | _ => false

/-- Core match of the email pattern against a whole string: a nonempty run
of local characters, the first at-sign, then the domain tail.  The local
class excludes the at-sign, so the split is at the first at-sign. -/
def email_exact (s : String) : Bool :=
  match s.data.findIdx? (· == '@') with
  | none => false
  | some i =>
      decide (s.data.take i ≠ []) && (s.data.take i).all isEmailLocalChar &&
        email_domain_match (s.data.drop (i + 1))

/-- validate_email_format of apps/user/utils.py: falsy or non-string input
is rejected, otherwise the stripped input is matched against the email
pattern; after stripping no trailing newline remains, so the plain core
match suffices for the dollar anchor. -/
def validate_email_format (email : PyVal) : Bool :=
  if !email.truthy || !email.is_str then false
  else email_exact email.as_str.trim

/-- Character class [a-zA-Z0-9_-] of the username regex. -/
def isUsernameChar (c : Char) : Bool :=
  c.isAlpha || c.isDigit || c == '_' || c == '-'

/-- Core match of the pattern [a-zA-Z0-9_-]\x7b3,20\x7d against a whole
string. -/
def username_exact (s : String) : Bool :=
  decide (3 ≤ s.length) && decide (s.length ≤ 20) && s.data.all isUsernameChar

/-- validate_username_format of apps/user/utils.py: falsy or non-string
input is rejected, otherwise the stripped input is matched against the
username pattern. -/
def validate_username_format (username : PyVal) : Bool :=
  if !username.truthy || !username.is_str then false
  else username_exact username.as_str.trim

/-- Special characters checked by validate_password_strength, the class
[!@#$%^&*(),.?":\x7b\x7d|<>]. -/
def password_special_chars : List Char :=
  ['!', '@', '#', '$', '%', '^', '&', '*', '(', ')', ',', '.', '?', '"',
   ':', '\x7b', '\x7d', '|', '<', '>']

/-- Result dictionary of validate_password_strength. -/
structure StrengthResult where
  is_valid : Bool
  score : Nat
  message : String
  suggestions : List String
deriving DecidableEq

/-- validate_password_strength of apps/user/utils.py: empty passwords are
rejected outright, length bounds 6 and 32 are enforced, then a score
starting at 1 gains one point per present character class, capped at 5;
the password is valid when the score reaches 3, and a suggestion is
recorded for each absent class. -/
def validate_password_strength (password : String) : StrengthResult :=
  if password == "" then
    { is_valid := false, score := 0, message := "密码不能为空", suggestions := [] }
  else if password.length < 6 then
    { is_valid := false, score := 0, message := "密码太短",
      suggestions := ["密码长度至少为6位"] }
  else if password.length > 32 then
    { is_valid := false, score := 0, message := "密码太长",
      suggestions := ["密码长度不能超过32位"] }
  else
    let hasLower := password.data.any fun c => 'a' ≤ c && c ≤ 'z'
    let hasUpper := password.data.any fun c => 'A' ≤ c && c ≤ 'Z'
    let hasDigit := password.data.any Char.isDigit
    let hasSpecial := password.data.any fun c => password_special_chars.contains c
    let score : Nat := 1 + (if hasLower then 1 else 0) + (if hasUpper then 1 else 0)
      + (if hasDigit then 1 else 0) + (if hasSpecial then 1 else 0)
    let suggestions :=
      (if hasLower then [] else ["建议包含小写字母"]) ++
      (if hasUpper then [] else ["建议包含大写字母"]) ++
      (if hasDigit then [] else ["建议包含数字"]) ++
      (if hasSpecial then [] else ["建议包含特殊字符"])
    { is_valid := 3 ≤ score, score := min score 5,
      message := if 3 ≤ score then "密码强度良好" else "密码强度不足",
      suggestions := suggestions }

/-- mask_phone_number of apps/user/utils.py: strings that are empty or not
eleven characters long are returned unchanged, otherwise the first three
and last four characters are kept around four asterisks. -/
def mask_phone_number (phone : String) : String :=
  if phone == "" || phone.length ≠ 11 then phone
  else String.mk (phone.data.take 3) ++ "****" ++ String.mk (phone.data.drop 7)

/-- mask_email_address of apps/user/utils.py: strings that are empty or
contain no at-sign are returned unchanged; otherwise the address is split
at the first at-sign, a local part of at most two characters is replaced
wholly by asterisks, a longer one keeps its first and last character, and
the domain is kept. -/
def mask_email_address (email : String) : String :=
  if email == "" || !(email.data.contains '@') then email
  else
    let lp := String.mk (email.data.takeWhile (fun c => !(c == '@')))
    let domain := String.mk ((email.data.dropWhile (fun c => !(c == '@'))).tail)
    let masked :=
      if lp.length ≤ 2 then String.mk (List.replicate lp.length '*')
      else String.mk (lp.data.take 1) ++
        String.mk (List.replicate (lp.length - 2) '*') ++
        String.mk (lp.data.drop (lp.length - 1))
    masked ++ "@" ++ domain

/-- Result dictionary of calculate_user_level.  The progress field of the
source is a floating-point display percentage and is not modelled. -/
structure LevelInfo where
  level : Int
  current_exp : Int
  next_level_exp : Int
deriving DecidableEq

/-- calculate_user_level of apps/user/utils.py: one level per thousand
experience points, with floor division and the nonnegative remainder of
Python integer arithmetic. -/
def calculate_user_level (experience : Int) : LevelInfo :=
  { level := max 1 (experience.fdiv 1000 + 1),
    current_exp := experience.fmod 1000,
    next_level_exp := 1000 }

/-- User record of apps/user/models.py: the custom fields of the model
plus the inherited username, password hash, email, last_login and
is_active of the framework user.  The audit timestamps create_time and
update_time are display-only and not modelled; the password field stores
a hash, never a plaintext. -/
structure User where
  id : Nat
  username : String
  password : String
  phone : String
  email : String
  nickname : String
  avatar : String
  gender : String
  birthday : String
  status : String
  last_login : Option Nat
  is_active : Bool
deriving DecidableEq

/-- is_user_active of apps/user/models.py: the account status is the
string active. -/
def User.is_user_active (u : User) : Bool :=
  u.status == "active"

/-- UserProfile record of apps/user/models.py, keyed by the one-to-one
user id. -/
structure UserProfile where
  user_id : Nat
  bio : String
  location : String
  website : String
  company : String
  job_title : String
  privacy_level : String
  email_verified : Bool
  phone_verified : Bool
deriving DecidableEq

/-- Profile created by UserProfile.objects.create(user=user): every field
takes its model default. -/
def defaultProfile (uid : Nat) : UserProfile :=
  { user_id := uid, bio := "", location := "", website := "", company := "",
    job_title := "", privacy_level := "public",
    email_verified := false, phone_verified := false }

/-- Database state: the users and user_profiles tables plus the id
sequence. -/
structure DB where
  users : List User
  profiles : List UserProfile
  next_id : Nat
deriving DecidableEq

/-- Password hashing as delegated to the framework, modelled as an
injective tagging function: equal hashes come from equal plaintexts. -/
def hashPassword (p : String) : String :=
  "pbkdf2_sha256$" ++ p

/-- check_password of the framework user: the stored hash is the hash of
the candidate plaintext. -/
def User.check_password (u : User) (p : String) : Bool :=
  u.password == hashPassword p

/-- Registration input of UserService.create_user: a dictionary whose
relevant keys may be absent. -/
structure UserData where
  username : Option String
  password : Option String
  phone : Option String
  email : Option String
  nickname : Option String
deriving DecidableEq

/-- Python falsiness of a dictionary lookup: the key is absent or its
value is the empty string. -/
def blankOpt : Option String → Bool
  | none => true
  | some s => s == ""

namespace UserService

/-- validate_phone of apps/user/services.py: empty strings are rejected,
otherwise re.match of r'^1[3-9]\d\x7b9\x7d$' without stripping. -/
def validate_phone (phone : String) : Bool :=
  if phone == "" then false
  else phone_regex_match phone

/-- create_user of apps/user/services.py: requires username, password and
phone to be present and nonempty, the phone to pass validate_phone, and
username and phone to be unused; then inside one transaction inserts the
new user, with nickname defaulting to the username when the key is
absent, together with its default profile.  Every failing path returns
the unchanged state, which models the transaction rollback. -/
def create_user (db : DB) (d : UserData) : DB × Except String User :=
  if blankOpt d.username then (db, .error "username 为必填项")
  else if blankOpt d.password then (db, .error "password 为必填项")
  else if blankOpt d.phone then (db, .error "phone 为必填项")
  else
    let username := d.username.getD ""
    let password := d.password.getD ""
    let phone := d.phone.getD ""
    if !validate_phone phone then (db, .error "手机号格式不正确")
    else if db.users.any (fun u => u.username == username) then
      (db, .error "用户名已存在")
    else if db.users.any (fun u => u.phone == phone) then
      (db, .error "手机号已注册")
    else
      let user : User :=
        { id := db.next_id, username := username,
          password := hashPassword password, phone := phone,
          email := d.email.getD "", nickname := d.nickname.getD username,
          avatar := "", gender := "unknown", birthday := "",
          status := "active", last_login := none, is_active := true }
      ({ db with users := db.users ++ [user],
                 profiles := db.profiles ++ [defaultProfile user.id],
                 next_id := db.next_id + 1 },
       .ok user)

/-- Framework authenticate with the default model backend: look the user
up by username, check the password, and require the is_active flag. -/
def django_authenticate (db : DB) (username password : String) : Option User :=
  match db.users.find? (fun u => u.username == username) with
  | some u => if u.check_password password && u.is_active then some u else none
  | none => none

/-- Identifier resolution of authenticate_user: an identifier in phone
format that belongs to some user is replaced by that owner's username. -/
def resolve_identifier (db : DB) (username : String) : String :=
  if validate_phone username then
    match db.users.find? (fun u => u.phone == username) with
    | some u => u.username
    | none => username
  else username

/-- Persist a new last_login timestamp for the user with the given id. -/
def set_last_login (db : DB) (uid : Nat) (now : Nat) : DB :=
  { db with users := db.users.map fun u =>
      if u.id == uid then { u with last_login := some now } else u }

/-- authenticate_user of apps/user/services.py after identifier
resolution: framework authentication by username, then the status check,
and on success the last_login update; now stands for datetime.now(). -/
def auth_with_username (db : DB) (username password : String) (now : Nat) :
    DB × Option User :=
  match django_authenticate db username password with
  | some u =>
      if u.is_user_active then
        (set_last_login db u.id now, some { u with last_login := some now })
      else (db, none)
  | none => (db, none)

/-- authenticate_user of apps/user/services.py: the identifier is first
resolved through the phone pattern, then credentials are checked. -/
def authenticate_user (db : DB) (username password : String) (now : Nat) :
    DB × Option User :=
  auth_with_username db (resolve_identifier db username) password now

/-- get_user_by_id of apps/user/services.py. -/
def get_user_by_id (db : DB) (uid : Nat) : Option User :=
  db.users.find? (fun u => u.id == uid)

/-- One setattr step of update_user_info: only the six allow-listed
fields are written, any other key leaves the record as it is. -/
def apply_field (u : User) (field value : String) : User :=
  if field == "nickname" then { u with nickname := value }
  else if field == "phone" then { u with phone := value }
  else if field == "email" then { u with email := value }
  else if field == "avatar" then { u with avatar := value }
  else if field == "gender" then { u with gender := value }
  else if field == "birthday" then { u with birthday := value }
  else u

/-- Setattr loop and save of update_user_info: every patch entry is
applied through the allow-list and the resulting record is persisted by
primary key and returned. -/
def save_updated (db : DB) (uid : Nat) (user : User)
    (patch : List (String × String)) : DB × Except String User :=
  ({ db with users := db.users.map fun x =>
      if x.id == uid then patch.foldl (fun acc kv => apply_field acc kv.1 kv.2) user
      else x },
   .ok (patch.foldl (fun acc kv => apply_field acc kv.1 kv.2) user))

/-- update_user_info of apps/user/services.py: the user must exist; when
the patch carries a phone it must pass validate_phone and must not be the
phone of a different user; then each patch entry is applied through the
allow-list and the record is saved.  The patch models the items of a
Python dictionary, so keys are distinct and lookup finds the value the
loop also applies. -/
def update_user_info (db : DB) (uid : Nat) (patch : List (String × String)) :
    DB × Except String User :=
  match get_user_by_id db uid with
  | none => (db, .error "用户不存在")
  | some user =>
      match patch.lookup "phone" with
      | some v =>
          if !validate_phone v then (db, .error "手机号格式不正确")
          else if db.users.any (fun x => x.id != uid && x.phone == v) then
            (db, .error "手机号已被其他用户使用")
          else save_updated db uid user patch
      | none => save_updated db uid user patch

/-- change_password of apps/user/services.py: the user must exist, the
old password must match the stored hash, the new password must have at
least six characters; then the new hash is persisted. -/
def change_password (db : DB) (uid : Nat) (old_pw new_pw : String) :
    DB × Except String Bool :=
  match get_user_by_id db uid with
  | none => (db, .error "用户不存在")
  | some u =>
      if !u.check_password old_pw then (db, .error "原密码错误")
      else if new_pw.length < 6 then (db, .error "新密码长度不能少于6位")
      else
        ({ db with users := db.users.map fun x =>
            if x.id == uid then { x with password := hashPassword new_pw } else x },
         .ok true)

end UserService

/-- Spec-side phone format, written from the words of the specification:
an eleven-character string, a leading 1, a second digit between 3 and 9,
and decimal digits throughout the remainder. -/
def spec_phone_11 (s : String) : Bool :=
  s.length == 11 &&
    (match s.data with
     | c1 :: c2 :: rest =>
         c1 == '1' && '3' ≤ c2 && c2 ≤ '9' && rest.all Char.isDigit
     | _ => false)

/-- Presence of a lowercase letter, the class [a-z]. -/
def hasLowercase (pw : String) : Bool :=
  pw.data.any fun c => 'a' ≤ c && c ≤ 'z'

/-- Presence of an uppercase letter, the class [A-Z]. -/
def hasUppercase (pw : String) : Bool :=
  pw.data.any fun c => 'A' ≤ c && c ≤ 'Z'

/-- Presence of a decimal digit. -/
def hasDigitChar (pw : String) : Bool :=
  pw.data.any Char.isDigit

/-- Presence of one of the special characters. -/
def hasSpecialChar (pw : String) : Bool :=
  pw.data.any fun c => password_special_chars.contains c

/-- Spec-side strength score: one base point plus one point per present
character class. -/
def rawScore (pw : String) : Nat :=
  1 + (if hasLowercase pw then 1 else 0) + (if hasUppercase pw then 1 else 0)
    + (if hasDigitChar pw then 1 else 0) + (if hasSpecialChar pw then 1 else 0)

/-- Spec-side suggestion list: one entry per absent character class. -/
def strengthSuggestions (pw : String) : List String :=
  (if hasLowercase pw then [] else ["建议包含小写字母"]) ++
  (if hasUppercase pw then [] else ["建议包含大写字母"]) ++
  (if hasDigitChar pw then [] else ["建议包含数字"]) ++
  (if hasSpecialChar pw then [] else ["建议包含特殊字符"])

/-- Fixture: the user created from the example registration data. -/
def exAlice : User :=
  { id := 1, username := "alice", password := hashPassword "secret1",
    phone := "13800138000", email := "", nickname := "alice", avatar := "",
    gender := "unknown", birthday := "", status := "active",
    last_login := none, is_active := true }

/-- Fixture: example registration data for alice. -/
def exData : UserData :=
  { username := some "alice", password := some "secret1",
    phone := some "13800138000", email := none, nickname := none }

/-- Fixture: empty database. -/
def exEmpty : DB :=
  { users := [], profiles := [], next_id := 1 }

/-- Fixture: database holding alice and her profile. -/
def exDB : DB :=
  { users := [exAlice], profiles := [defaultProfile 1], next_id := 2 }

/-- Fixture: the same database with alice marked deleted. -/
def exDeletedDB : DB :=
  { users := [{ exAlice with status := "deleted" }],
    profiles := [defaultProfile 1], next_id := 2 }

/-! Theorems. -/

/-- C7: mask_phone_number keeps the first three and last four characters
of the example phone number around four asterisks, and mask_email_address
keeps the first and last character of the example local part and the
domain, masking the interior. -/
theorem c7_masking_examples :
    mask_phone_number "13800138000" = "138****8000" ∧
    mask_email_address "test@example.com" = "t**t@example.com" := by
  constructor <;> decide

/-- C9: the masking functions are the identity on malformed input: a
phone string whose length is not eleven is returned unchanged, an email
without an at-sign is returned unchanged, and when the local part has at
most two characters it is replaced wholly by asterisks with the domain
kept. -/
theorem c9_masking_malformed :
    (∀ p : String, p.length ≠ 11 → mask_phone_number p = p) ∧
    (∀ e : String, e.data.contains '@' = false → mask_email_address e = e) ∧
    (∀ e : String, e.data.contains '@' = true →
      (e.data.takeWhile (fun c => !(c == '@'))).length ≤ 2 →
      mask_email_address e =
        String.mk (List.replicate (e.data.takeWhile (fun c => !(c == '@'))).length '*') ++
          "@" ++ String.mk ((e.data.dropWhile (fun c => !(c == '@'))).tail)) := by
  refine ⟨fun p h => ?_, fun e h => ?_, fun e h1 h2 => ?_⟩
  · unfold mask_phone_number
    simp [h]
  · have h' : '@' ∉ e.data := by simpa using h
    unfold mask_email_address
    simp [h']
  · have hne : e ≠ "" := by
      intro h0
      rw [h0] at h1
      exact absurd h1 (by decide)
    have h1' : '@' ∈ e.data := by simpa using h1
    unfold mask_email_address
    simp [h1', h2, hne, String.length]

/-- C9 witness: concrete instances of the three masking facts. -/
theorem c9_masking_malformed_witness :
    ("1380013800" : String).length ≠ 11 ∧
      mask_phone_number "1380013800" = "1380013800" ∧
    ("no-at-sign" : String).data.contains '@' = false ∧
      mask_email_address "no-at-sign" = "no-at-sign" ∧
    ("ab@x.com" : String).data.contains '@' = true ∧
      (("ab@x.com" : String).data.takeWhile (fun c => !(c == '@'))).length ≤ 2 ∧
      mask_email_address "ab@x.com" =
        String.mk (List.replicate
            (("ab@x.com" : String).data.takeWhile (fun c => !(c == '@'))).length '*') ++
          "@" ++ String.mk ((("ab@x.com" : String).data.dropWhile (fun c => !(c == '@'))).tail) :=
  ⟨by decide, c9_masking_malformed.1 "1380013800" (by decide),
   by decide, c9_masking_malformed.2.1 "no-at-sign" (by decide),
   by decide, by decide,
   c9_masking_malformed.2.2 "ab@x.com" (by decide) (by decide)⟩

/-- C10: for nonnegative experience, calculate_user_level returns the
level max 1 (experience div 1000 plus 1), the remainder as current_exp
and 1000 as next_level_exp, the level and current_exp recombine to the
experience, and current_exp stays below next_level_exp. -/
theorem c10_calculate_user_level (e : Int) (h : 0 ≤ e) :
    calculate_user_level e =
      { level := max 1 (e.fdiv 1000 + 1), current_exp := e.fmod 1000,
        next_level_exp := 1000 } ∧
    ((calculate_user_level e).level - 1) * 1000 + (calculate_user_level e).current_exp = e ∧
    (calculate_user_level e).current_exp < (calculate_user_level e).next_level_exp := by
  refine ⟨rfl, ?_, ?_⟩
  · have hd : 0 ≤ e.fdiv 1000 := Int.fdiv_nonneg h (by norm_num)
    have hmax : max 1 (e.fdiv 1000 + 1) = e.fdiv 1000 + 1 := by omega
    have hrec : 1000 * e.fdiv 1000 + e.fmod 1000 = e := Int.fdiv_add_fmod e 1000
    simp only [calculate_user_level, hmax]
    omega
  · simpa [calculate_user_level] using Int.fmod_lt_of_pos e (b := 1000) (by norm_num)

/-- C10 witness: the level facts at experience 1500. -/
theorem c10_calculate_user_level_witness :
    (0 : Int) ≤ 1500 ∧
    (calculate_user_level 1500 =
      { level := max 1 ((1500 : Int).fdiv 1000 + 1), current_exp := (1500 : Int).fmod 1000,
        next_level_exp := 1000 } ∧
    ((calculate_user_level 1500).level - 1) * 1000 + (calculate_user_level 1500).current_exp = 1500 ∧
    (calculate_user_level 1500).current_exp < (calculate_user_level 1500).next_level_exp) :=
  ⟨by decide, c10_calculate_user_level 1500 (by decide)⟩

/-- C8: the three format validators are total and reject degenerate
input: on None, on the empty string, and on every non-string value they
return false. -/
theorem c8_validators_total (v : PyVal)
    (h : v = PyVal.vNone ∨ v = PyVal.vStr "" ∨ v.is_str = false) :
    validate_phone_number v = false ∧ validate_email_format v = false ∧
      validate_username_format v = false := by
  rcases h with h | h | h
  · subst h; exact ⟨rfl, rfl, rfl⟩
  · subst h; exact ⟨rfl, rfl, rfl⟩
  · cases v <;> simp_all [validate_phone_number, validate_email_format,
      validate_username_format, PyVal.is_str]

/-- C8 witness: the validators reject the integer zero. -/
theorem c8_validators_total_witness :
    (PyVal.vInt 0 = PyVal.vNone ∨ PyVal.vInt 0 = PyVal.vStr "" ∨
      (PyVal.vInt 0).is_str = false) ∧
    (validate_phone_number (PyVal.vInt 0) = false ∧
      validate_email_format (PyVal.vInt 0) = false ∧
      validate_username_format (PyVal.vInt 0) = false) :=
  ⟨Or.inr (Or.inr (by decide)),
   c8_validators_total (PyVal.vInt 0) (Or.inr (Or.inr (by decide)))⟩

/-- The source-side core regex match agrees with the spec-side
eleven-character phone format. -/
theorem phone_exact_eq_spec (s : String) : phone_exact s = spec_phone_11 s := by
  cases s with
  | mk l =>
    match l with
    | [] => rfl
    | [c] => rfl
    | c1 :: c2 :: rest =>
      have hlen : (rest.length = 9) ↔ (rest.length + 1 + 1 = 11) := by omega
      simp only [phone_exact, spec_phone_11, isPhoneSecond, String.length]
      rw [Bool.eq_iff_iff]
      simp only [Bool.and_eq_true, beq_iff_eq, decide_eq_true_eq, List.length_cons]
      tauto

/-- C5 counterexample: a twelve-character string, a valid phone followed
by one newline, is accepted by validate_phone, because the dollar anchor
of the Python pattern also matches just before a trailing newline; so it
is not the case that every string of length other than eleven is
rejected. -/
theorem c5_counterexample :
    UserService.validate_phone "13800138000\n" = true ∧
    ("13800138000\n" : String).length = 12 := by
  constructor <;> decide

/-- C5 amended: validate_phone accepts exactly the strings matching the
eleven-character phone format, or such a match followed by one trailing
newline; the example phone is accepted and the string starting with 2 is
rejected. -/
theorem c5_validate_phone (s : String) :
    UserService.validate_phone s =
      (spec_phone_11 s ||
        (s.data.getLast? == some '\n' && spec_phone_11 (String.mk s.data.dropLast))) ∧
    UserService.validate_phone "13800138000" = true ∧
    UserService.validate_phone "12345678901" = false := by
  refine ⟨?_, by decide, by decide⟩
  by_cases h : s = ""
  · subst h; decide
  · have hb : (s == "") = false := by simpa using h
    simp [UserService.validate_phone, phone_regex_match, phone_exact_eq_spec, hb]

/-- C5 amended witness: the amended equation evaluated at the
twelve-character input. -/
theorem c5_validate_phone_witness :
    UserService.validate_phone "13800138000\n" =
      (spec_phone_11 "13800138000\n" ||
        (("13800138000\n" : String).data.getLast? == some '\n' &&
          spec_phone_11 (String.mk ("13800138000\n" : String).data.dropLast))) :=
  (c5_validate_phone "13800138000\n").1

/-- In the length-admitting branch, validate_password_strength returns
the score, validity, message and suggestions determined by the four
character classes. -/
theorem vps_main_shape (pw : String) (h0 : pw ≠ "")
    (h6 : ¬ pw.length < 6) (h32 : ¬ 32 < pw.length) :
    validate_password_strength pw =
      { is_valid := decide (3 ≤ rawScore pw), score := min (rawScore pw) 5,
        message := if 3 ≤ rawScore pw then "密码强度良好" else "密码强度不足",
        suggestions := strengthSuggestions pw } := by
  have hb : (pw == "") = false := by simpa using h0
  unfold validate_password_strength
  rw [if_neg (by simp [hb]), if_neg h6, if_neg h32]
  rfl

/-- The raw score is at most five. -/
theorem rawScore_le_five (pw : String) : rawScore pw ≤ 5 := by
  unfold rawScore
  split_ifs <;> omega

/-- C4: passwords shorter than six or longer than thirty-two characters
are invalid; validity always coincides with the returned score reaching
three; in the admitted range the score is one plus one point per present
character class capped at five, and a suggestion is returned for each
absent class; the first example scores five and is valid, the second is
invalid with the minimum-length suggestion. -/
theorem c4_password_strength :
    (∀ pw : String, pw.length < 6 ∨ 32 < pw.length →
      (validate_password_strength pw).is_valid = false) ∧
    (∀ pw : String, (validate_password_strength pw).is_valid =
      decide (3 ≤ (validate_password_strength pw).score)) ∧
    (∀ pw : String, pw ≠ "" → 6 ≤ pw.length → pw.length ≤ 32 →
      (validate_password_strength pw).score = min (rawScore pw) 5 ∧
      (hasLowercase pw = false →
        "建议包含小写字母" ∈ (validate_password_strength pw).suggestions) ∧
      (hasUppercase pw = false →
        "建议包含大写字母" ∈ (validate_password_strength pw).suggestions) ∧
      (hasDigitChar pw = false →
        "建议包含数字" ∈ (validate_password_strength pw).suggestions) ∧
      (hasSpecialChar pw = false →
        "建议包含特殊字符" ∈ (validate_password_strength pw).suggestions)) ∧
    (validate_password_strength "Abc123!@#").score = 5 ∧
    (validate_password_strength "Abc123!@#").is_valid = true ∧
    (validate_password_strength "abc").is_valid = false ∧
    "密码长度至少为6位" ∈ (validate_password_strength "abc").suggestions := by
  refine ⟨?_, ?_, ?_, by decide, by decide, by decide, by decide⟩
  · intro pw h
    rcases eq_or_ne pw "" with h0 | h0
    · subst h0; rfl
    rcases h with h | h
    · have hb : (pw == "") = false := by simpa using h0
      unfold validate_password_strength
      rw [if_neg (by simp [hb]), if_pos h]
    · have hb : (pw == "") = false := by simpa using h0
      unfold validate_password_strength
      rw [if_neg (by simp [hb])]
      rcases Nat.lt_or_ge pw.length 6 with h6 | h6
      · rw [if_pos h6]
      · rw [if_neg (by omega), if_pos h]
  · intro pw
    rcases eq_or_ne pw "" with h0 | h0
    · subst h0; rfl
    by_cases h6 : pw.length < 6
    · have hb : (pw == "") = false := by simpa using h0
      unfold validate_password_strength
      rw [if_neg (by simp [hb]), if_pos h6]
      rfl
    by_cases h32 : 32 < pw.length
    · have hb : (pw == "") = false := by simpa using h0
      unfold validate_password_strength
      rw [if_neg (by simp [hb]), if_neg h6, if_pos h32]
      rfl
    · rw [vps_main_shape pw h0 h6 h32]
      have h5 := rawScore_le_five pw
      have hmin : min (rawScore pw) 5 = rawScore pw := by omega
      simp [hmin]
  · intro pw h0 h6 h32
    rw [vps_main_shape pw h0 (by omega) (by omega)]
    refine ⟨rfl, ?_, ?_, ?_, ?_⟩ <;>
      intro hcls <;>
      simp [strengthSuggestions, hcls]

/-- C4 witness: the too-short example is invalid. -/
theorem c4_password_strength_witness :
    (("abc" : String).length < 6 ∨ 32 < ("abc" : String).length) ∧
    (validate_password_strength "abc").is_valid = false :=
  ⟨Or.inl (by decide), c4_password_strength.1 "abc" (Or.inl (by decide))⟩

/-- C1: create_user fails, returning the unchanged state, when the
username, password or phone is missing or empty, when the phone fails the
phone-format check, or when the username or phone is already taken; and
whenever it succeeds, the returned user carries the requested username,
the hashed password, the phone, and the nickname defaulted to the
username when absent, and the new state persists exactly this user
together with its default profile. -/
theorem c1_create_user (db : DB) (d : UserData) :
    (blankOpt d.username = true ∨ blankOpt d.password = true ∨
      blankOpt d.phone = true ∨
      UserService.validate_phone (d.phone.getD "") = false ∨
      db.users.any (fun u => u.username == d.username.getD "") = true ∨
      db.users.any (fun u => u.phone == d.phone.getD "") = true →
      ∃ e, UserService.create_user db d = (db, .error e)) ∧
    (∀ db2 u, UserService.create_user db d = (db2, .ok u) →
      u.username = d.username.getD "" ∧
      u.password = hashPassword (d.password.getD "") ∧
      u.phone = d.phone.getD "" ∧
      u.nickname = d.nickname.getD (d.username.getD "") ∧
      db2.users = db.users ++ [u] ∧
      db2.profiles = db.profiles ++ [defaultProfile u.id]) := by
  constructor
  · intro h
    unfold UserService.create_user
    by_cases h1 : blankOpt d.username = true
    · exact ⟨"username 为必填项", by rw [if_pos h1]⟩
    rw [if_neg h1]
    by_cases h2 : blankOpt d.password = true
    · exact ⟨"password 为必填项", by rw [if_pos h2]⟩
    rw [if_neg h2]
    by_cases h3 : blankOpt d.phone = true
    · exact ⟨"phone 为必填项", by rw [if_pos h3]⟩
    rw [if_neg h3]
    by_cases h4 : UserService.validate_phone (d.phone.getD "") = false
    · exact ⟨"手机号格式不正确", by rw [if_pos (by simp [h4])]⟩
    rw [if_neg (by simp_all)]
    by_cases h5 : db.users.any (fun u => u.username == d.username.getD "") = true
    · exact ⟨"用户名已存在", by rw [if_pos h5]⟩
    rw [if_neg h5]
    by_cases h6 : db.users.any (fun u => u.phone == d.phone.getD "") = true
    · exact ⟨"手机号已注册", by rw [if_pos h6]⟩
    tauto
  · intro db2 u h
    unfold UserService.create_user at h
    by_cases h1 : blankOpt d.username = true
    · rw [if_pos h1] at h; simp at h
    rw [if_neg h1] at h
    by_cases h2 : blankOpt d.password = true
    · rw [if_pos h2] at h; simp at h
    rw [if_neg h2] at h
    by_cases h3 : blankOpt d.phone = true
    · rw [if_pos h3] at h; simp at h
    rw [if_neg h3] at h
    by_cases h4 : UserService.validate_phone (d.phone.getD "") = true
    · rw [if_neg (by simp [h4])] at h
      by_cases h5 : db.users.any (fun u => u.username == d.username.getD "") = true
      · rw [if_pos h5] at h; simp at h
      rw [if_neg h5] at h
      by_cases h6 : db.users.any (fun u => u.phone == d.phone.getD "") = true
      · rw [if_pos h6] at h; simp at h
      rw [if_neg h6] at h
      rw [Prod.mk.injEq] at h
      obtain ⟨hdb, hok⟩ := h
      rw [Except.ok.injEq] at hok
      subst hdb
      subst hok
      exact ⟨rfl, rfl, rfl, rfl, rfl, rfl⟩
    · rw [if_pos (by simpa using h4)] at h
      simp at h

/-- C1 witness: registering a duplicate username against the alice
database fails and leaves the state unchanged, and the original creation
of alice from the empty database produces exactly alice and her
profile. -/
theorem c1_create_user_witness :
    (exDB.users.any (fun u => u.username == exData.username.getD "") = true) ∧
    (∃ e, UserService.create_user exDB exData = (exDB, .error e)) ∧
    (exAlice.username = exData.username.getD "" ∧
      exAlice.password = hashPassword (exData.password.getD "") ∧
      exAlice.phone = exData.phone.getD "" ∧
      exAlice.nickname = exData.nickname.getD (exData.username.getD "") ∧
      exDB.users = exEmpty.users ++ [exAlice] ∧
      exDB.profiles = exEmpty.profiles ++ [defaultProfile exAlice.id]) :=
  ⟨by decide,
   (c1_create_user exDB exData).1
     (Or.inr (Or.inr (Or.inr (Or.inr (Or.inl (by decide)))))),
   (c1_create_user exEmpty exData).2 exDB exAlice rfl⟩

/-- Framework authentication when the username lookup succeeds. -/
theorem django_authenticate_of_find_some (db : DB) (n p : String) (u0 : User)
    (h : db.users.find? (fun u => u.username == n) = some u0) :
    UserService.django_authenticate db n p =
      (if (u0.check_password p && u0.is_active) = true then some u0 else none) := by
  unfold UserService.django_authenticate
  rw [h]

/-- Framework authentication when the username lookup fails. -/
theorem django_authenticate_of_find_none (db : DB) (n p : String)
    (h : db.users.find? (fun u => u.username == n) = none) :
    UserService.django_authenticate db n p = none := by
  unfold UserService.django_authenticate
  rw [h]

/-- C2: authenticate_user resolves an identifier in phone format to the
owning username before checking credentials; whenever the resolved
username has no user, or the password fails the stored hash, or the
status is not active, no identity is returned and the state is unchanged;
and whenever some identity is returned, its password checks out, its
status is active, its last_login was set to the current time, and the
state records that timestamp for it. -/
theorem c2_authenticate_user (db : DB) (ident pw : String) (now : Nat) :
    (UserService.validate_phone ident = true →
      ∀ owner, db.users.find? (fun u => u.phone == ident) = some owner →
        UserService.authenticate_user db ident pw now =
          UserService.auth_with_username db owner.username pw now) ∧
    (db.users.find?
        (fun u => u.username == UserService.resolve_identifier db ident) = none →
      UserService.authenticate_user db ident pw now = (db, none)) ∧
    (∀ u0, db.users.find?
        (fun u => u.username == UserService.resolve_identifier db ident) = some u0 →
      u0.check_password pw = false ∨ u0.status ≠ "active" →
      UserService.authenticate_user db ident pw now = (db, none)) ∧
    (∀ db2 u, UserService.authenticate_user db ident pw now = (db2, some u) →
      u.check_password pw = true ∧ u.status = "active" ∧
      u.last_login = some now ∧ db2 = UserService.set_last_login db u.id now ∧
      ∃ u0, db.users.find?
          (fun x => x.username == UserService.resolve_identifier db ident) = some u0 ∧
        u = { u0 with last_login := some now }) := by
  refine ⟨?_, ?_, ?_, ?_⟩
  · intro hp owner howner
    unfold UserService.authenticate_user UserService.resolve_identifier
    rw [if_pos hp, howner]
  · intro hnone
    unfold UserService.authenticate_user UserService.auth_with_username
    rw [django_authenticate_of_find_none db _ pw hnone]
  · intro u0 hfind hbad
    unfold UserService.authenticate_user UserService.auth_with_username
    rw [django_authenticate_of_find_some db _ pw u0 hfind]
    by_cases hck : (u0.check_password pw && u0.is_active) = true
    · rw [if_pos hck]
      rcases hbad with hbad | hbad
      · exact absurd ((Bool.and_eq_true ..).mp hck).1 (by simp [hbad])
      · simp [User.is_user_active, hbad]
    · rw [if_neg hck]
  · intro db2 u h
    unfold UserService.authenticate_user UserService.auth_with_username at h
    cases hfind : db.users.find?
        (fun x => x.username == UserService.resolve_identifier db ident) with
    | none =>
        rw [django_authenticate_of_find_none db _ pw hfind] at h
        simp at h
    | some u0 =>
        rw [django_authenticate_of_find_some db _ pw u0 hfind] at h
        by_cases hck : (u0.check_password pw && u0.is_active) = true
        · rw [if_pos hck] at h
          simp only [User.is_user_active] at h
          by_cases hact : (u0.status == "active") = true
          · rw [if_pos hact] at h
            rw [Prod.mk.injEq] at h
            obtain ⟨hdb, hsome⟩ := h
            rw [Option.some.injEq] at hsome
            subst hsome
            subst hdb
            refine ⟨?_, ?_, rfl, rfl, u0, rfl, rfl⟩
            · have := (Bool.and_eq_true ..).mp hck
              simpa [User.check_password] using this.1
            · simpa using hact
          · rw [if_neg hact] at h
            simp at h
        · rw [if_neg hck] at h
          simp at h

/-- C2 witness: with correct credentials but status deleted, no identity
is returned and the state is unchanged. -/
theorem c2_authenticate_user_witness :
    exDeletedDB.users.find?
      (fun u => u.username == UserService.resolve_identifier exDeletedDB "alice") =
      some { exAlice with status := "deleted" } ∧
    ({ exAlice with status := "deleted" } : User).check_password "secret1" = true ∧
    UserService.authenticate_user exDeletedDB "alice" "secret1" 42 = (exDeletedDB, none) :=
  ⟨by decide, by decide,
   (c2_authenticate_user exDeletedDB "alice" "secret1" 42).2.2.1
     { exAlice with status := "deleted" } (by decide) (Or.inr (by decide))⟩

/-- One setattr step through the allow-list never changes the id,
username, password hash, status, last_login or is_active of a record. -/
theorem apply_field_frame (u : User) (f v : String) :
    (UserService.apply_field u f v).id = u.id ∧
    (UserService.apply_field u f v).username = u.username ∧
    (UserService.apply_field u f v).password = u.password ∧
    (UserService.apply_field u f v).status = u.status ∧
    (UserService.apply_field u f v).last_login = u.last_login ∧
    (UserService.apply_field u f v).is_active = u.is_active := by
  unfold UserService.apply_field
  split_ifs <;> exact ⟨rfl, rfl, rfl, rfl, rfl, rfl⟩

/-- Folding setattr steps over a whole patch never changes the id,
username, password hash, status, last_login or is_active of a record. -/
theorem foldl_apply_field_frame (patch : List (String × String)) (u : User) :
    (patch.foldl (fun acc kv => UserService.apply_field acc kv.1 kv.2) u).id = u.id ∧
    (patch.foldl (fun acc kv => UserService.apply_field acc kv.1 kv.2) u).username = u.username ∧
    (patch.foldl (fun acc kv => UserService.apply_field acc kv.1 kv.2) u).password = u.password ∧
    (patch.foldl (fun acc kv => UserService.apply_field acc kv.1 kv.2) u).status = u.status ∧
    (patch.foldl (fun acc kv => UserService.apply_field acc kv.1 kv.2) u).last_login = u.last_login ∧
    (patch.foldl (fun acc kv => UserService.apply_field acc kv.1 kv.2) u).is_active = u.is_active := by
  induction patch generalizing u with
  | nil => exact ⟨rfl, rfl, rfl, rfl, rfl, rfl⟩
  | cons kv tl ih =>
      simp only [List.foldl_cons]
      obtain ⟨i1, i2, i3, i4, i5, i6⟩ := ih (UserService.apply_field u kv.1 kv.2)
      obtain ⟨a1, a2, a3, a4, a5, a6⟩ := apply_field_frame u kv.1 kv.2
      exact ⟨i1.trans a1, i2.trans a2, i3.trans a3, i4.trans a4,
             i5.trans a5, i6.trans a6⟩

/-- C6: on an existing identity, update_user_info fails and leaves the
state unchanged when the patch carries a phone that fails the format
check or that belongs to a different identity; and on every success it
returns a record agreeing with the stored one on every field outside the
allow-list nickname, phone, email, avatar, gender, birthday, the state
replacing only that identity with this record. -/
theorem c6_update_user_info (db : DB) (uid : Nat)
    (patch : List (String × String)) (u : User)
    (hu : UserService.get_user_by_id db uid = some u) :
    (∀ v, patch.lookup "phone" = some v →
      (UserService.validate_phone v = false ∨
        db.users.any (fun x => x.id != uid && x.phone == v) = true) →
      ∃ e, UserService.update_user_info db uid patch = (db, .error e)) ∧
    (∀ db2 u2, UserService.update_user_info db uid patch = (db2, .ok u2) →
      u2.id = u.id ∧ u2.username = u.username ∧ u2.password = u.password ∧
      u2.status = u.status ∧ u2.last_login = u.last_login ∧
      u2.is_active = u.is_active ∧
      db2 = { db with users := db.users.map fun x =>
        if x.id == uid then u2 else x }) := by
  have hsave : ∀ db2 u2,
      UserService.save_updated db uid u patch = (db2, .ok u2) →
      u2.id = u.id ∧ u2.username = u.username ∧ u2.password = u.password ∧
      u2.status = u.status ∧ u2.last_login = u.last_login ∧
      u2.is_active = u.is_active ∧
      db2 = { db with users := db.users.map fun x =>
        if x.id == uid then u2 else x } := by
    intro db2 u2 h
    unfold UserService.save_updated at h
    rw [Prod.mk.injEq] at h
    obtain ⟨hdb, hok⟩ := h
    rw [Except.ok.injEq] at hok
    subst hok
    subst hdb
    obtain ⟨f1, f2, f3, f4, f5, f6⟩ := foldl_apply_field_frame patch u
    exact ⟨f1, f2, f3, f4, f5, f6, rfl⟩
  constructor
  · intro v hv hbad
    unfold UserService.update_user_info
    simp only [hu, hv]
    rcases hbad with hbad | hbad
    · refine ⟨"手机号格式不正确", ?_⟩
      rw [if_pos (by simp [hbad])]
    · by_cases hfmt : UserService.validate_phone v = true
      · refine ⟨"手机号已被其他用户使用", ?_⟩
        rw [if_neg (by simp [hfmt]), if_pos hbad]
      · refine ⟨"手机号格式不正确", ?_⟩
        rw [if_pos (by simp [Bool.not_eq_true] at hfmt ⊢; exact hfmt)]
  · intro db2 u2 h
    unfold UserService.update_user_info at h
    simp only [hu] at h
    cases hv : patch.lookup "phone" with
    | none =>
        simp only [hv] at h
        exact hsave db2 u2 h
    | some v =>
        simp only [hv] at h
        by_cases hfmt : UserService.validate_phone v = true
        · rw [if_neg (by simp [hfmt])] at h
          by_cases hdup : db.users.any (fun x => x.id != uid && x.phone == v) = true
          · rw [if_pos hdup] at h
            simp at h
          · rw [if_neg hdup] at h
            exact hsave db2 u2 h
        · rw [if_pos (by simp [Bool.not_eq_true] at hfmt ⊢; exact hfmt)] at h
          simp at h

/-- C6 witness: patching alice with a nickname, a disallowed status key
and an unknown key succeeds, keeps every field outside the allow-list,
and replaces only her record in the state. -/
theorem c6_update_user_info_witness :
    UserService.get_user_by_id exDB 1 = some exAlice ∧
    (UserService.update_user_info exDB 1
        [("nickname", "Al"), ("status", "hacked"), ("unknown_key", "x")] =
      ({ exDB with users := exDB.users.map fun x =>
          if x.id == 1 then { exAlice with nickname := "Al" } else x },
        .ok { exAlice with nickname := "Al" })) ∧
    ({ exAlice with nickname := "Al" } : User).id = exAlice.id ∧
    ({ exAlice with nickname := "Al" } : User).username = exAlice.username ∧
    ({ exAlice with nickname := "Al" } : User).password = exAlice.password ∧
    ({ exAlice with nickname := "Al" } : User).status = exAlice.status ∧
    ({ exAlice with nickname := "Al" } : User).last_login = exAlice.last_login ∧
    ({ exAlice with nickname := "Al" } : User).is_active = exAlice.is_active :=
  ⟨rfl, rfl,
   ((c6_update_user_info exDB 1
        [("nickname", "Al"), ("status", "hacked"), ("unknown_key", "x")]
        exAlice rfl).2
      { exDB with users := exDB.users.map fun x =>
          if x.id == 1 then { exAlice with nickname := "Al" } else x }
      { exAlice with nickname := "Al" } rfl).1,
   ((c6_update_user_info exDB 1
        [("nickname", "Al"), ("status", "hacked"), ("unknown_key", "x")]
        exAlice rfl).2
      { exDB with users := exDB.users.map fun x =>
          if x.id == 1 then { exAlice with nickname := "Al" } else x }
      { exAlice with nickname := "Al" } rfl).2.1,
   ((c6_update_user_info exDB 1
        [("nickname", "Al"), ("status", "hacked"), ("unknown_key", "x")]
        exAlice rfl).2
      { exDB with users := exDB.users.map fun x =>
          if x.id == 1 then { exAlice with nickname := "Al" } else x }
      { exAlice with nickname := "Al" } rfl).2.2.1,
   ((c6_update_user_info exDB 1
        [("nickname", "Al"), ("status", "hacked"), ("unknown_key", "x")]
        exAlice rfl).2
      { exDB with users := exDB.users.map fun x =>
          if x.id == 1 then { exAlice with nickname := "Al" } else x }
      { exAlice with nickname := "Al" } rfl).2.2.2.1,
   ((c6_update_user_info exDB 1
        [("nickname", "Al"), ("status", "hacked"), ("unknown_key", "x")]
        exAlice rfl).2
      { exDB with users := exDB.users.map fun x =>
          if x.id == 1 then { exAlice with nickname := "Al" } else x }
      { exAlice with nickname := "Al" } rfl).2.2.2.2.1,
   ((c6_update_user_info exDB 1
        [("nickname", "Al"), ("status", "hacked"), ("unknown_key", "x")]
        exAlice rfl).2
      { exDB with users := exDB.users.map fun x =>
          if x.id == 1 then { exAlice with nickname := "Al" } else x }
      { exAlice with nickname := "Al" } rfl).2.2.2.2.2.1⟩

/-- The modelled password hash is injective: equal stored hashes come
from equal plaintexts. -/
theorem hashPassword_injective (a b : String) (h : hashPassword a = hashPassword b) :
    a = b := by
  unfold hashPassword at h
  have hd := congrArg String.data h
  rw [String.data_append, String.data_append] at hd
  exact String.ext (List.append_cancel_left hd)

/-- Lookup by username commutes with the per-record password update,
which changes no username. -/
theorem find?_username_map_password (l : List User) (uid : Nat) (p n : String) :
    (l.map fun x => if x.id == uid then { x with password := p } else x).find?
        (fun x => x.username == n) =
      (l.find? (fun x => x.username == n)).map
        (fun x => if x.id == uid then { x with password := p } else x) := by
  induction l with
  | nil => rfl
  | cons a tl ih =>
      have hname :
          ((if a.id == uid then { a with password := p } else a : User).username == n) =
            (a.username == n) := by
        split <;> rfl
      simp only [List.map_cons, List.find?]
      rw [hname]
      by_cases hb : (a.username == n) = true
      · rw [hb]
        rfl
      · rw [eq_false_of_ne_true hb]
        exact ih

/-- C3 counterexample: changing the password of alice with the correct
old password equal to the new one succeeds, after which authentication
with that old password still returns the identity; so it is not the case
that after every successful call authentication with the old password
fails. -/
theorem c3_counterexample :
    UserService.change_password exDB 1 "secret1" "secret1" =
      ({ exDB with users := exDB.users.map fun x =>
          if x.id == 1 then { x with password := hashPassword "secret1" } else x },
       .ok true) ∧
    6 ≤ ("secret1" : String).length ∧
    (UserService.authenticate_user
        (UserService.change_password exDB 1 "secret1" "secret1").1
        "alice" "secret1" 0).2 =
      some { exAlice with last_login := some 0 } :=
  ⟨rfl, by decide, rfl⟩

/-- C3 amended: change_password fails, leaving the state and hence the
stored hash unchanged, when the identity is missing, the old password
does not match the stored hash, or the new password is shorter than six
characters; on success the stored hash becomes the hash of the new
password, and then, for an identity that is active and whose username
resolves to itself, authentication with the new password succeeds, and
authentication with the old password fails provided the old and new
passwords differ. -/
theorem c3_change_password (db : DB) (uid : Nat) (old_pw new_pw : String) (t : Nat) :
    (UserService.get_user_by_id db uid = none →
      UserService.change_password db uid old_pw new_pw = (db, .error "用户不存在")) ∧
    (∀ u, UserService.get_user_by_id db uid = some u →
      (u.check_password old_pw = false →
        UserService.change_password db uid old_pw new_pw = (db, .error "原密码错误")) ∧
      (u.check_password old_pw = true → new_pw.length < 6 →
        UserService.change_password db uid old_pw new_pw =
          (db, .error "新密码长度不能少于6位")) ∧
      (u.check_password old_pw = true → 6 ≤ new_pw.length →
        UserService.change_password db uid old_pw new_pw =
          ({ db with users := db.users.map fun x =>
              if x.id == uid then { x with password := hashPassword new_pw } else x },
           .ok true)) ∧
      (u.check_password old_pw = true → 6 ≤ new_pw.length →
        u.status = "active" → u.is_active = true →
        UserService.validate_phone u.username = false →
        db.users.find? (fun x => x.username == u.username) = some u →
        (UserService.authenticate_user
            (UserService.change_password db uid old_pw new_pw).1
            u.username new_pw t).2 =
          some { u with password := hashPassword new_pw, last_login := some t } ∧
        (old_pw ≠ new_pw →
          (UserService.authenticate_user
              (UserService.change_password db uid old_pw new_pw).1
              u.username old_pw t).2 = none))) := by
  constructor
  · intro hnone
    unfold UserService.change_password
    simp only [hnone]
  · intro u hu
    have hid : (u.id == uid) = true := by
      have hu' : db.users.find? (fun x => x.id == uid) = some u := hu
      have h2 := List.find?_some hu'
      simpa using h2
    refine ⟨?_, ?_, ?_, ?_⟩
    · intro hck
      unfold UserService.change_password
      simp only [hu]
      rw [if_pos (by simp [hck])]
    · intro hck hlen
      unfold UserService.change_password
      simp only [hu]
      rw [if_neg (by simp [hck]), if_pos hlen]
    · intro hck hlen
      unfold UserService.change_password
      simp only [hu]
      rw [if_neg (by simp [hck]), if_neg (by omega)]
    · intro hck hlen hstatus hactive hval hfind
      have hsucc : UserService.change_password db uid old_pw new_pw =
          ({ db with users := db.users.map fun x =>
              if x.id == uid then { x with password := hashPassword new_pw } else x },
           .ok true) := by
        unfold UserService.change_password
        simp only [hu]
        rw [if_neg (by simp [hck]), if_neg (by omega)]
      have hdb1 : (UserService.change_password db uid old_pw new_pw).1 =
          { db with users := db.users.map fun x =>
              if x.id == uid then { x with password := hashPassword new_pw } else x } := by
        rw [hsucc]
      have hmap := find?_username_map_password db.users uid (hashPassword new_pw) u.username
      rw [hfind] at hmap
      rw [Option.map_some'] at hmap
      rw [if_pos hid] at hmap
      have hresolve : UserService.resolve_identifier
          { db with users := db.users.map fun x =>
              if x.id == uid then { x with password := hashPassword new_pw } else x }
          u.username = u.username := by
        unfold UserService.resolve_identifier
        rw [if_neg (by simp [hval])]
      constructor
      · rw [hdb1]
        unfold UserService.authenticate_user UserService.auth_with_username
        rw [hresolve]
        rw [django_authenticate_of_find_some _ _ _ _ hmap]
        rw [if_pos (by simp [User.check_password, hactive])]
        simp [User.is_user_active, hstatus]
      · intro hneq
        have hckold : ({ u with password := hashPassword new_pw } : User).check_password
            old_pw = false := by
          unfold User.check_password
          by_cases hbe : (hashPassword new_pw == hashPassword old_pw) = true
          · exact absurd (hashPassword_injective _ _ (eq_of_beq hbe)).symm hneq
          · simpa using hbe
        rw [hdb1]
        unfold UserService.authenticate_user UserService.auth_with_username
        rw [hresolve]
        rw [django_authenticate_of_find_some _ _ _ _ hmap]
        rw [if_neg (by simp [hckold])]

/-- C3 witness: after changing the password of alice from the correct
old password to a different six-plus-character one, authentication with
the new password returns the identity and authentication with the old
password returns none. -/
theorem c3_change_password_witness :
    UserService.get_user_by_id exDB 1 = some exAlice ∧
    (UserService.authenticate_user
        (UserService.change_password exDB 1 "secret1" "newpass1").1
        "alice" "newpass1" 7).2 =
      some { exAlice with password := hashPassword "newpass1", last_login := some 7 } ∧
    (UserService.authenticate_user
        (UserService.change_password exDB 1 "secret1" "newpass1").1
        "alice" "secret1" 7).2 = none :=
  ⟨rfl,
   (((c3_change_password exDB 1 "secret1" "newpass1" 7).2 exAlice rfl).2.2.2
      (by decide) (by decide) rfl rfl (by decide) rfl).1,
   (((c3_change_password exDB 1 "secret1" "newpass1" 7).2 exAlice rfl).2.2.2
      (by decide) (by decide) rfl rfl (by decide) rfl).2 (by decide)⟩

end IdeaSpark
